import Mathlib

/-
  Verification development for the voxel-cone-tracing excerpt:
  a shallow embedding of src/Source/Graphic/Material/Material.cpp and
  src/Source/Graphic/Material/ComputeShader.h, together with theorems
  about the claims of the specification.

  Modelling conventions:
  * OpenGL calls are recorded as an explicit trace of `GLCall` events;
    the linked program's uniform-name resolution (glGetUniformLocation)
    is modelled as a function `prog : String -> Int`, returning -1 for
    an unresolved name (as OpenGL does).
  * Payload values (matrix/vector/scalar contents) are opaque `Int`
    identifiers: the uniform-upload code never inspects them, it only
    forwards them to the GL call.
  * A C `assert` that fires terminates the process; a function that can
    hit an assert returns `Option`, with `none` for the aborted run.
  * `glError()` only polls the GL error flag and prints; it has no
    semantic effect on the uniform uploads and is not recorded.
-/

set_option autoImplicit false

namespace VCT

/-- ShaderParameter::Type as used by Material::Commands::setValue
    (Material.cpp lines 117-192): the eleven value-carrying enumerators
    plus NONE, which the entry assert excludes and which is the only
    enumerator reaching the default (assert(false)) branch. -/
inductive ShaderParamType where
  | NONE
  | MAT4
  | VEC4
  | VEC3
  | VEC2
  | FLOAT
  | INT
  | BOOLEAN
  | UINT
  | SAMPLER_2D
  | SAMPLER_3D
  | POINT_LIGHT
deriving DecidableEq

/-- PointLight (Graphic/Lighting/PointLight.h): an index into the
    pointLights uniform array plus position and color vectors
    (payloads kept opaque). -/
structure PointLight where
  index : Nat
  position : Int
  color : Int
deriving DecidableEq

/-- A ShaderParameter as consumed by setValue: the declared type tag
    together with the value returned by the getter for each type.
    Sampler entries carry the texture object id that
    sampler.texture->GetTextureID() would return. -/
structure ShaderParameter where
  type : ShaderParamType
  mat4Value : Int
  vec4Value : Int
  vec3Value : Int
  vec2Value : Int
  floatValue : Int
  intValue : Int
  boolValue : Bool
  uintValue : Nat
  sampler2DTexID : Int
  sampler3DTexID : Int
  pointLight : PointLight
deriving DecidableEq

/-- One recorded OpenGL call issued by the uniform-upload code. -/
inductive GLCall where
  | getUniformLocation (name : String) (result : Int)
  | uniformMatrix4fv (loc : Int) (value : Int)
  | uniform4fv (loc : Int) (value : Int)
  | uniform3fv (loc : Int) (value : Int)
  | uniform2fv (loc : Int) (value : Int)
  | uniform1f (loc : Int) (value : Int)
  | uniform1i (loc : Int) (value : Int)
  | uniform1ui (loc : Int) (value : Nat)
  | activeTexture (unit : Int)
  | bindTexture2D (tex : Int)
  | bindTexture3D (tex : Int)
deriving DecidableEq

/-- Value of the GL_TEXTURE0 token (0x84C0), added to the texture unit
    in glActiveTexture(GL_TEXTURE0 + textureUnit). -/
def GL_TEXTURE0 : Int := 33984

/-- Value of the GL_MAX_COMBINED_TEXTURE_IMAGE_UNITS token (0x8B4D).
    ActivateTexture2D/3D assert this token value (not a queried limit)
    to be greater than the texture unit. -/
def GL_MAX_COMBINED_TEXTURE_IMAGE_UNITS : Int := 35661

/-- Material::Commands::SetParameteri (Material.cpp 202-207). -/
def SetParameteri (prog : String → Int) (parameterName : String) (value : Int) :
    List GLCall × Int :=
  let location := prog parameterName
  ([.getUniformLocation parameterName location, .uniform1i location value], location)

/-- Material::Commands::SetParameterui (Material.cpp 209-214).
    The source stores the location in a GLuint and returns it as GLint;
    the conversion round-trips for every value glGetUniformLocation can
    return (-1 or a nonnegative location), so the location is kept as an
    integer directly. -/
def SetParameterui (prog : String → Int) (parameterName : String) (value : Nat) :
    List GLCall × Int :=
  let location := prog parameterName
  ([.getUniformLocation parameterName location, .uniform1ui location value], location)

/-- Material::Commands::SetParameterf (Material.cpp 216-221). -/
def SetParameterf (prog : String → Int) (parameterName : String) (value : Int) :
    List GLCall × Int :=
  let location := prog parameterName
  ([.getUniformLocation parameterName location, .uniform1f location value], location)

/-- Material::Commands::SetParameterv4 (Material.cpp 223-228). -/
def SetParameterv4 (prog : String → Int) (parameterName : String) (value : Int) :
    List GLCall × Int :=
  let location := prog parameterName
  ([.getUniformLocation parameterName location, .uniform4fv location value], location)

/-- Material::Commands::SetParameterv3 (Material.cpp 230-235). -/
def SetParameterv3 (prog : String → Int) (parameterName : String) (value : Int) :
    List GLCall × Int :=
  let location := prog parameterName
  ([.getUniformLocation parameterName location, .uniform3fv location value], location)

/-- Material::Commands::SetParameterv2 (Material.cpp 237-242). -/
def SetParameterv2 (prog : String → Int) (parameterName : String) (value : Int) :
    List GLCall × Int :=
  let location := prog parameterName
  ([.getUniformLocation parameterName location, .uniform2fv location value], location)

/-- Material::Commands::SetParamatermat4 (Material.cpp 244-249;
    the source's spelling of the name is kept). -/
def SetParamatermat4 (prog : String → Int) (parameterName : String) (value : Int) :
    List GLCall × Int :=
  let location := prog parameterName
  ([.getUniformLocation parameterName location, .uniformMatrix4fv location value], location)

/-- Material::Commands::SetParameterBool (Material.cpp 284-289):
    glUniform1i with the bool converted to 0/1. -/
def SetParameterBool (prog : String → Int) (parameterName : String) (value : Bool) :
    List GLCall × Int :=
  let location := prog parameterName
  ([.getUniformLocation parameterName location,
    .uniform1i location (if value then 1 else 0)], location)

/-- Uniform name of a point light's position member, as built by
    SetPointLight (Material.cpp 266). -/
def pointLightPosName (i : Nat) : String :=
  "pointLights[" ++ toString i ++ "].position"

/-- Uniform name of a point light's color member, as built by
    SetPointLight (Material.cpp 268). -/
def pointLightColorName (i : Nat) : String :=
  "pointLights[" ++ toString i ++ "].color"

/-- Material::Commands::SetPointLight (Material.cpp 264-271): resolves
    and uploads the position, then resolves the color name only when the
    position resolved (the ternary keeps location = -1 otherwise), and
    uploads the color at whatever location resulted. -/
def SetPointLight (prog : String → Int) (light : PointLight) :
    List GLCall × Int :=
  let posName := pointLightPosName light.index
  let location := prog posName
  let head := [GLCall.getUniformLocation posName location,
               GLCall.uniform3fv location light.position]
  if location ≠ -1 then
    let colorName := pointLightColorName light.index
    let location2 := prog colorName
    (head ++ [GLCall.getUniformLocation colorName location2,
              GLCall.uniform3fv location2 light.color], location2)
  else
    (head ++ [GLCall.uniform3fv location light.color], location)

/-- Material::Commands::ActivateTexture2D (Material.cpp 273-282):
    asserts the GL_MAX_COMBINED_TEXTURE_IMAGE_UNITS token value exceeds
    the unit, activates the unit, binds the 2D texture, resolves the
    sampler uniform and sets it to the unit index. `none` models the
    assert firing. -/
def ActivateTexture2D (prog : String → Int) (samplerName : String)
    (textureName : Int) (textureUnit : Int) : Option (List GLCall × Int) :=
  if GL_MAX_COMBINED_TEXTURE_IMAGE_UNITS > textureUnit then
    let location := prog samplerName
    some ([.activeTexture (GL_TEXTURE0 + textureUnit),
           .bindTexture2D textureName,
           .getUniformLocation samplerName location,
           .uniform1i location textureUnit], location)
  else none

/-- Material::Commands::ActivateTexture3D (Material.cpp 304-315):
    as ActivateTexture2D but binding GL_TEXTURE_3D. -/
def ActivateTexture3D (prog : String → Int) (samplerName : String)
    (textureName : Int) (textureUnit : Int) : Option (List GLCall × Int) :=
  if GL_MAX_COMBINED_TEXTURE_IMAGE_UNITS > textureUnit then
    let location := prog samplerName
    some ([.activeTexture (GL_TEXTURE0 + textureUnit),
           .bindTexture3D textureName,
           .getUniformLocation samplerName location,
           .uniform1i location textureUnit], location)
  else none

/-- The switch of Material::Commands::setValue (Material.cpp 117-192):
    dispatch on the declared type to the typed upload call, returning the
    recorded trace and the `result` location.  SAMPLER_2D/SAMPLER_3D go
    through SetParameterSampler2D/3D, which forward the texture id and
    the current textureUnits counter to ActivateTexture2D/3D.  The NONE
    case is the default branch's assert(false). -/
def dispatchParam (prog : String → Int) (setting : ShaderParameter)
    (name : String) (textureUnits : Int) : Option (List GLCall × Int) :=
  match setting.type with
  | .MAT4 => some (SetParamatermat4 prog name setting.mat4Value)
  | .VEC4 => some (SetParameterv4 prog name setting.vec4Value)
  | .VEC3 => some (SetParameterv3 prog name setting.vec3Value)
  | .VEC2 => some (SetParameterv2 prog name setting.vec2Value)
  | .FLOAT => some (SetParameterf prog name setting.floatValue)
  | .INT => some (SetParameteri prog name setting.intValue)
  | .BOOLEAN => some (SetParameterBool prog name setting.boolValue)
  | .UINT => some (SetParameterui prog name setting.uintValue)
  | .SAMPLER_2D => ActivateTexture2D prog name setting.sampler2DTexID textureUnits
  | .SAMPLER_3D => ActivateTexture3D prog name setting.sampler3DTexID textureUnits
  | .POINT_LIGHT => some (SetPointLight prog setting.pointLight)
  | .NONE => none

/-- Material::Commands::setValue (Material.cpp 111-199): asserts the
    type is not NONE, dispatches to the typed upload call, and prints
    the unresolved-parameter warning exactly when the returned location
    is -1.  The Bool of the result records whether the warning was
    printed; `none` models an assert firing. -/
def setValue (prog : String → Int) (setting : ShaderParameter)
    (name : String) (textureUnits : Int) : Option (List GLCall × Bool) :=
  if setting.type = ShaderParamType.NONE then none
  else
    match dispatchParam prog setting name textureUnits with
    | none => none
    | some (trace, result) => some (trace, result == -1)

/-- Whether a declared type is one of the two sampler types; the
    textureUnits counter in uploadParameters advances exactly on these. -/
def isSampler (t : ShaderParamType) : Bool :=
  t = ShaderParamType.SAMPLER_2D || t = ShaderParamType.SAMPLER_3D

/-- The loop body state change of uploadParameters: textureUnits grows
    by one after a sampler entry, by zero otherwise
    (Material.cpp 334-335). -/
def tuIncrement (t : ShaderParamType) : Int :=
  if isSampler t then 1 else 0

/-- The loop of Material::Commands::uploadParameters (Material.cpp
    327-336) at an arbitrary textureUnits value: processes each entry
    with setValue, then advances the counter on sampler entries; the
    per-entry traces and warning flags are collected in order.  `none`
    models an assert firing inside some entry, which terminates the
    process. -/
def uploadParametersAux (prog : String → Int) :
    List (String × ShaderParameter) → Int → Option (List (List GLCall × Bool))
  | [], _ => some []
  | (name, setting) :: rest, textureUnits =>
    match setValue prog setting name textureUnits with
    | none => none
    | some r =>
      match uploadParametersAux prog rest (textureUnits + tuIncrement setting.type) with
      | none => none
      | some rs => some (r :: rs)

/-- Material::Commands::uploadParameters (Material.cpp 324-339):
    resets textureUnits to 0, then runs the loop.  (The trailing
    textureUnits = 0 at line 338 only re-clears the member.) -/
def uploadParameters (prog : String → Int)
    (group : List (String × ShaderParameter)) : Option (List (List GLCall × Bool)) :=
  uploadParametersAux prog group 0

/-- Number of sampler-typed entries among the first i entries of a
    parameter group: the texture unit an entry at position i is
    processed with. -/
def samplersBefore (group : List (String × ShaderParameter)) (i : Nat) : Nat :=
  ((group.take i).filter (fun p => isSampler p.2.type)).length

/-- Name at which an entry's uniform location is resolved: the entry's
    own name, except that SetPointLight resolves the constructed
    pointLights[i].position name (the color member follows only if the
    position resolved). -/
def resolvedNameOf (setting : ShaderParameter) (name : String) : String :=
  match setting.type with
  | .POINT_LIGHT => pointLightPosName setting.pointLight.index
  | _ => name

/-- The typed upload call the switch of setValue issues for each
    declared type, at a given location: used to state that each entry's
    value goes out through the call matching its type.  For samplers the
    uploaded datum is the texture unit; for a point light it is the
    position vector (the color follows in the same call's trace). -/
def expectedUpload (setting : ShaderParameter) (loc : Int)
    (textureUnits : Int) : GLCall :=
  match setting.type with
  | .MAT4 => .uniformMatrix4fv loc setting.mat4Value
  | .VEC4 => .uniform4fv loc setting.vec4Value
  | .VEC3 => .uniform3fv loc setting.vec3Value
  | .VEC2 => .uniform2fv loc setting.vec2Value
  | .FLOAT => .uniform1f loc setting.floatValue
  | .INT => .uniform1i loc setting.intValue
  | .BOOLEAN => .uniform1i loc (if setting.boolValue then 1 else 0)
  | .UINT => .uniform1ui loc setting.uintValue
  | .SAMPLER_2D => .uniform1i loc textureUnits
  | .SAMPLER_3D => .uniform1i loc textureUnits
  | .POINT_LIGHT => .uniform3fv loc setting.pointLight.position
  | .NONE => .uniform1i loc 0

lemma samplersBefore_zero (group : List (String × ShaderParameter)) :
    samplersBefore group 0 = 0 := by
  simp [samplersBefore]

lemma samplersBefore_cons_succ (p : String × ShaderParameter)
    (rest : List (String × ShaderParameter)) (i : Nat) :
    samplersBefore (p :: rest) (i + 1) =
      (if isSampler p.2.type then 1 else 0) + samplersBefore rest i := by
  simp only [samplersBefore, List.take_succ_cons, List.filter_cons]
  cases h : isSampler p.2.type <;> simp [h, Nat.add_comm]

lemma setValue_some (prog : String → Int) (st : ShaderParameter) (name : String)
    (tu : Int) (tr : List GLCall) (w : Bool)
    (h : setValue prog st name tu = some (tr, w)) :
    st.type ≠ ShaderParamType.NONE ∧
    ∃ res, dispatchParam prog st name tu = some (tr, res) ∧ w = (res == -1) := by
  unfold setValue at h
  split at h
  · cases h
  · rename_i hty
    cases hd : dispatchParam prog st name tu with
    | none => rw [hd] at h; cases h
    | some p =>
      obtain ⟨tr', res⟩ := p
      rw [hd] at h
      injection h with h'
      obtain ⟨h1, h2⟩ := Prod.mk.injEq .. ▸ h'
      exact ⟨hty, res, by rw [← h1], h2.symm⟩

lemma uploadAux_sound (prog : String → Int) (group : List (String × ShaderParameter)) :
    ∀ (tu : Int) (rs : List (List GLCall × Bool)),
      uploadParametersAux prog group tu = some rs →
      rs.length = group.length ∧
      ∀ i p, group.get? i = some p →
        rs.get? i = setValue prog p.2 p.1 (tu + (samplersBefore group i : Int)) := by
  induction group with
  | nil =>
    intro tu rs h
    simp only [uploadParametersAux] at h
    injection h with h'
    subst h'
    exact ⟨rfl, by intro i p hp; simp at hp⟩
  | cons q rest ih =>
    intro tu rs h
    obtain ⟨name, st⟩ := q
    simp only [uploadParametersAux] at h
    cases hsv : setValue prog st name tu with
    | none => rw [hsv] at h; cases h
    | some r =>
      rw [hsv] at h
      cases haux : uploadParametersAux prog rest (tu + tuIncrement st.type) with
      | none => rw [haux] at h; cases h
      | some rs' =>
        rw [haux] at h
        injection h with h'
        subst h'
        obtain ⟨hlen, hget⟩ := ih (tu + tuIncrement st.type) rs' haux
        refine ⟨by simp [hlen], ?_⟩
        intro i p hp
        cases i with
        | zero =>
          simp only [List.get?_cons_zero] at hp ⊢
          injection hp with hp'
          subst hp'
          rw [samplersBefore_zero]
          simpa using hsv.symm
        | succ i =>
          simp only [List.get?_cons_succ] at hp ⊢
          rw [hget i p hp, samplersBefore_cons_succ]
          congr 1
          unfold tuIncrement
          cases hs : isSampler st.type <;> (push_cast; simp [hs]; try ring)

lemma get?_isSome_of_lt {α : Type} (l : List α) (i : Nat) (h : i < l.length) :
    ∃ a, l.get? i = some a := by
  cases hr : l.get? i with
  | none => rw [List.get?_eq_none] at hr; omega
  | some a => exact ⟨a, rfl⟩

lemma dispatchParam_mem (prog : String → Int) (st : ShaderParameter) (name : String)
    (tu : Int) (tr : List GLCall) (res : Int)
    (hd : dispatchParam prog st name tu = some (tr, res)) :
    GLCall.getUniformLocation (resolvedNameOf st name) (prog (resolvedNameOf st name)) ∈ tr ∧
    expectedUpload st (prog (resolvedNameOf st name)) tu ∈ tr := by
  cases hty : st.type
  case NONE => simp [dispatchParam, hty] at hd
  case MAT4 =>
    simp [dispatchParam, hty, SetParamatermat4] at hd
    simp [resolvedNameOf, hty, expectedUpload, ← hd.1]
  case VEC4 =>
    simp [dispatchParam, hty, SetParameterv4] at hd
    simp [resolvedNameOf, hty, expectedUpload, ← hd.1]
  case VEC3 =>
    simp [dispatchParam, hty, SetParameterv3] at hd
    simp [resolvedNameOf, hty, expectedUpload, ← hd.1]
  case VEC2 =>
    simp [dispatchParam, hty, SetParameterv2] at hd
    simp [resolvedNameOf, hty, expectedUpload, ← hd.1]
  case FLOAT =>
    simp [dispatchParam, hty, SetParameterf] at hd
    simp [resolvedNameOf, hty, expectedUpload, ← hd.1]
  case INT =>
    simp [dispatchParam, hty, SetParameteri] at hd
    simp [resolvedNameOf, hty, expectedUpload, ← hd.1]
  case BOOLEAN =>
    simp [dispatchParam, hty, SetParameterBool] at hd
    simp [resolvedNameOf, hty, expectedUpload, ← hd.1]
  case UINT =>
    simp [dispatchParam, hty, SetParameterui] at hd
    simp [resolvedNameOf, hty, expectedUpload, ← hd.1]
  case SAMPLER_2D =>
    simp only [dispatchParam, hty] at hd
    unfold ActivateTexture2D at hd
    split at hd
    · injection hd with h'
      obtain ⟨h1, h2⟩ := Prod.mk.injEq .. ▸ h'
      simp [resolvedNameOf, hty, expectedUpload, ← h1]
    · cases hd
  case SAMPLER_3D =>
    simp only [dispatchParam, hty] at hd
    unfold ActivateTexture3D at hd
    split at hd
    · injection hd with h'
      obtain ⟨h1, h2⟩ := Prod.mk.injEq .. ▸ h'
      simp [resolvedNameOf, hty, expectedUpload, ← h1]
    · cases hd
  case POINT_LIGHT =>
    simp only [dispatchParam, hty] at hd
    simp only [SetPointLight] at hd
    split at hd <;>
    · injection hd with h'
      obtain ⟨h1, h2⟩ := Prod.mk.injEq .. ▸ h'
      simp [resolvedNameOf, hty, expectedUpload, ← h1]

lemma dispatchParam_sampler_mem (prog : String → Int) (st : ShaderParameter)
    (name : String) (tu : Int) (tr : List GLCall) (res : Int)
    (hd : dispatchParam prog st name tu = some (tr, res))
    (hs : isSampler st.type = true) :
    GLCall.activeTexture (GL_TEXTURE0 + tu) ∈ tr ∧
    GLCall.uniform1i (prog name) tu ∈ tr ∧
    (st.type = ShaderParamType.SAMPLER_2D → GLCall.bindTexture2D st.sampler2DTexID ∈ tr) ∧
    (st.type = ShaderParamType.SAMPLER_3D → GLCall.bindTexture3D st.sampler3DTexID ∈ tr) := by
  cases hty : st.type <;> rw [hty] at hs <;> simp only [isSampler] at hs <;> try cases hs
  case SAMPLER_2D =>
    simp only [dispatchParam, hty] at hd
    unfold ActivateTexture2D at hd
    split at hd
    · injection hd with h'
      obtain ⟨h1, h2⟩ := Prod.mk.injEq .. ▸ h'
      simp [hty, ← h1]
    · cases hd
  case SAMPLER_3D =>
    simp only [dispatchParam, hty] at hd
    unfold ActivateTexture3D at hd
    split at hd
    · injection hd with h'
      obtain ⟨h1, h2⟩ := Prod.mk.injEq .. ▸ h'
      simp [hty, ← h1]
    · cases hd

/-- C1: every entry of a parameter group handed to uploadParameters whose
    declared type is one of the eleven enumerated shader-parameter types
    has its uniform location resolved by name in the material's linked
    program (modelled by `prog`) and its value uploaded by the typed
    upload call matching that declared type.  (A pass that completes —
    `uploadParameters = some rs` — contains only entries of the eleven
    types, since a NONE entry asserts.)  The entry at position i is
    processed with the texture-unit counter at `samplersBefore group i`. -/
theorem c1_typed_upload_per_entry (prog : String → Int)
    (group : List (String × ShaderParameter)) (rs : List (List GLCall × Bool))
    (h : uploadParameters prog group = some rs)
    (i : Nat) (n : String) (st : ShaderParameter)
    (hget : group.get? i = some (n, st)) :
    ∃ trace warn, rs.get? i = some (trace, warn) ∧
      GLCall.getUniformLocation (resolvedNameOf st n) (prog (resolvedNameOf st n)) ∈ trace ∧
      expectedUpload st (prog (resolvedNameOf st n)) ((samplersBefore group i : Int)) ∈ trace := by
  obtain ⟨hlen, hsound⟩ := uploadAux_sound prog group 0 rs h
  have hrs := hsound i (n, st) hget
  rw [zero_add] at hrs
  have hi : i < group.length := by
    by_contra hc
    push_neg at hc
    rw [List.get?_eq_none.mpr hc] at hget
    cases hget
  obtain ⟨tw, hr⟩ := get?_isSome_of_lt rs i (by omega)
  obtain ⟨trace, warn⟩ := tw
  rw [hr] at hrs
  obtain ⟨hty, res, hd, hw⟩ := setValue_some prog st n _ trace warn hrs.symm
  obtain ⟨hmem1, hmem2⟩ := dispatchParam_mem prog st n _ trace res hd
  exact ⟨trace, warn, hr, hmem1, hmem2⟩

/-- C1 witness: a one-entry group with an INT parameter whose name
    resolves to location 5. -/
def cProg1 : String → Int := fun n => if n = "u" then 5 else -1

/-- A ShaderParameter with all payload fields zeroed, for concrete
    witnesses. -/
def mkParam (t : ShaderParamType) : ShaderParameter :=
  { type := t, mat4Value := 0, vec4Value := 0, vec3Value := 0, vec2Value := 0,
    floatValue := 0, intValue := 0, boolValue := false, uintValue := 0,
    sampler2DTexID := 0, sampler3DTexID := 0, pointLight := ⟨0, 0, 0⟩ }

def cParamInt : ShaderParameter := { mkParam ShaderParamType.INT with intValue := 9 }

def cGroup1 : List (String × ShaderParameter) := [("u", cParamInt)]

def cRs1 : List (List GLCall × Bool) :=
  [([GLCall.getUniformLocation "u" 5, GLCall.uniform1i 5 9], false)]

theorem c1_witness :
    ∃ trace warn, cRs1.get? 0 = some (trace, warn) ∧
      GLCall.getUniformLocation (resolvedNameOf cParamInt "u")
        (cProg1 (resolvedNameOf cParamInt "u")) ∈ trace ∧
      expectedUpload cParamInt (cProg1 (resolvedNameOf cParamInt "u"))
        ((samplersBefore cGroup1 0 : Int)) ∈ trace :=
  c1_typed_upload_per_entry cProg1 cGroup1 cRs1 (by decide) 0 "u" cParamInt (by decide)

/-- C2: in each upload pass the texture-unit counter starts from zero
    (uploadParameters runs the loop at counter 0), and the entry at
    position i, when it is a sampler, binds its texture to texture unit
    `samplersBefore group i` — the number of sampler entries processed
    before it, so the k-th sampler entry of the pass uses unit k-1 — and
    sets its uniform to that unit index; non-sampler entries never
    advance the counter. -/
theorem c2_texture_unit_assignment (prog : String → Int)
    (group : List (String × ShaderParameter)) (rs : List (List GLCall × Bool))
    (h : uploadParameters prog group = some rs)
    (i : Nat) (n : String) (st : ShaderParameter)
    (hget : group.get? i = some (n, st))
    (hs : isSampler st.type = true) :
    uploadParametersAux prog group 0 = some rs ∧
    ∃ trace warn, rs.get? i = some (trace, warn) ∧
      GLCall.activeTexture (GL_TEXTURE0 + (samplersBefore group i : Int)) ∈ trace ∧
      GLCall.uniform1i (prog n) ((samplersBefore group i : Int)) ∈ trace ∧
      (st.type = ShaderParamType.SAMPLER_2D → GLCall.bindTexture2D st.sampler2DTexID ∈ trace) ∧
      (st.type = ShaderParamType.SAMPLER_3D → GLCall.bindTexture3D st.sampler3DTexID ∈ trace) := by
  refine ⟨h, ?_⟩
  obtain ⟨hlen, hsound⟩ := uploadAux_sound prog group 0 rs h
  have hrs := hsound i (n, st) hget
  rw [zero_add] at hrs
  have hi : i < group.length := by
    by_contra hc
    push_neg at hc
    rw [List.get?_eq_none.mpr hc] at hget
    cases hget
  obtain ⟨tw, hr⟩ := get?_isSome_of_lt rs i (by omega)
  obtain ⟨trace, warn⟩ := tw
  rw [hr] at hrs
  obtain ⟨hty, res, hd, hw⟩ := setValue_some prog st n _ trace warn hrs.symm
  obtain ⟨hm1, hm2, hm3, hm4⟩ := dispatchParam_sampler_mem prog st n _ trace res hd hs
  exact ⟨trace, warn, hr, hm1, hm2, hm3, hm4⟩

def cProgS : String → Int := fun n => if n = "s" then 2 else -1

def cParamS2 : ShaderParameter :=
  { mkParam ShaderParamType.SAMPLER_2D with sampler2DTexID := 7 }

def cGroupS : List (String × ShaderParameter) := [("s", cParamS2)]

def cRsS : List (List GLCall × Bool) :=
  [([GLCall.activeTexture 33984, GLCall.bindTexture2D 7,
     GLCall.getUniformLocation "s" 2, GLCall.uniform1i 2 0], false)]

theorem c2_witness :
    uploadParametersAux cProgS cGroupS 0 = some cRsS ∧
    ∃ trace warn, cRsS.get? 0 = some (trace, warn) ∧
      GLCall.activeTexture (GL_TEXTURE0 + (samplersBefore cGroupS 0 : Int)) ∈ trace ∧
      GLCall.uniform1i (cProgS "s") ((samplersBefore cGroupS 0 : Int)) ∈ trace ∧
      (cParamS2.type = ShaderParamType.SAMPLER_2D →
        GLCall.bindTexture2D cParamS2.sampler2DTexID ∈ trace) ∧
      (cParamS2.type = ShaderParamType.SAMPLER_3D →
        GLCall.bindTexture3D cParamS2.sampler3DTexID ∈ trace) :=
  c2_texture_unit_assignment cProgS cGroupS cRsS (by decide) 0 "s" cParamS2
    (by decide) (by decide)

/-- C3: when the typed upload call for an entry returns location -1
    (its uniform name did not resolve in the linked program), setValue
    returns normally (no assert fires, and the code raises no
    exception) having printed the warning, and the upload pass goes on
    to process exactly the remaining entries. -/
theorem c3_unresolved_warns_and_continues (prog : String → Int) (name : String)
    (st : ShaderParameter) (rest : List (String × ShaderParameter)) (tu : Int)
    (hres : (dispatchParam prog st name tu).map Prod.snd = some (-1)) :
    ∃ trace, setValue prog st name tu = some (trace, true) ∧
      uploadParametersAux prog ((name, st) :: rest) tu =
        (uploadParametersAux prog rest (tu + tuIncrement st.type)).map
          (fun rs => (trace, true) :: rs) := by
  cases hd : dispatchParam prog st name tu with
  | none => rw [hd] at hres; cases hres
  | some p =>
    obtain ⟨trace, res⟩ := p
    rw [hd] at hres
    have hres' : res = -1 := by simpa using hres
    have hty : st.type ≠ ShaderParamType.NONE := by
      intro heq
      simp [dispatchParam, heq] at hd
    have hsv : setValue prog st name tu = some (trace, true) := by
      unfold setValue
      rw [if_neg hty, hd]
      simp [hres']
    refine ⟨trace, hsv, ?_⟩
    simp only [uploadParametersAux]
    rw [hsv]
    cases h2 : uploadParametersAux prog rest (tu + tuIncrement st.type) <;> rfl

def cProg3 : String → Int := fun _ => -1

theorem c3_witness :
    ∃ trace, setValue cProg3 cParamInt "w" 0 = some (trace, true) ∧
      uploadParametersAux cProg3 [("w", cParamInt), ("v", cParamInt)] 0 =
        (uploadParametersAux cProg3 [("v", cParamInt)]
            (0 + tuIncrement cParamInt.type)).map
          (fun rs => (trace, true) :: rs) :=
  c3_unresolved_warns_and_continues cProg3 "w" cParamInt [("v", cParamInt)] 0 (by decide)

lemma pointLightPosName_ne_colorName (i : Nat) :
    pointLightPosName i ≠ pointLightColorName i := by
  intro h
  have h1 : (pointLightPosName i).length = (pointLightColorName i).length :=
    congrArg String.length h
  unfold pointLightPosName pointLightColorName at h1
  rw [String.length_append, String.length_append,
      String.length_append, String.length_append] at h1
  have e1 : "].position".length = 10 := rfl
  have e2 : "].color".length = 7 := rfl
  rw [e1, e2] at h1
  omega

/-- C10: for a point-light entry, setValue (through SetPointLight)
    uploads the position to the pointLights[i].position uniform and the
    color to pointLights[i].color; the unresolved-parameter warning is
    printed exactly when the position or the color uniform fails to
    resolve, and when the position is unresolved the color location is
    never queried — the color is uploaded to location -1 (a GL no-op)
    and the whole entry reports unresolved. -/
theorem c10_point_light_resolution (prog : String → Int) (name : String)
    (st : ShaderParameter) (tu : Int)
    (hty : st.type = ShaderParamType.POINT_LIGHT) :
    ∃ trace warn, setValue prog st name tu = some (trace, warn) ∧
      (prog (pointLightPosName st.pointLight.index) ≠ -1 →
        trace = [GLCall.getUniformLocation (pointLightPosName st.pointLight.index)
                   (prog (pointLightPosName st.pointLight.index)),
                 GLCall.uniform3fv (prog (pointLightPosName st.pointLight.index))
                   st.pointLight.position,
                 GLCall.getUniformLocation (pointLightColorName st.pointLight.index)
                   (prog (pointLightColorName st.pointLight.index)),
                 GLCall.uniform3fv (prog (pointLightColorName st.pointLight.index))
                   st.pointLight.color]) ∧
      (prog (pointLightPosName st.pointLight.index) = -1 →
        trace = [GLCall.getUniformLocation (pointLightPosName st.pointLight.index) (-1),
                 GLCall.uniform3fv (-1) st.pointLight.position,
                 GLCall.uniform3fv (-1) st.pointLight.color] ∧
        (∀ l, GLCall.getUniformLocation (pointLightColorName st.pointLight.index) l ∉ trace)) ∧
      (warn = true ↔ (prog (pointLightPosName st.pointLight.index) = -1 ∨
                      prog (pointLightColorName st.pointLight.index) = -1)) := by
  have hne : st.type ≠ ShaderParamType.NONE := by rw [hty]; intro h; cases h
  by_cases hpl : prog (pointLightPosName st.pointLight.index) = -1
  · have hsp : SetPointLight prog st.pointLight =
        ([GLCall.getUniformLocation (pointLightPosName st.pointLight.index) (-1),
          GLCall.uniform3fv (-1) st.pointLight.position,
          GLCall.uniform3fv (-1) st.pointLight.color], -1) := by
      simp [SetPointLight, hpl]
    have hd : dispatchParam prog st name tu =
        some ([GLCall.getUniformLocation (pointLightPosName st.pointLight.index) (-1),
               GLCall.uniform3fv (-1) st.pointLight.position,
               GLCall.uniform3fv (-1) st.pointLight.color], -1) := by
      simp only [dispatchParam, hty]
      rw [hsp]
    have hsv : setValue prog st name tu =
        some ([GLCall.getUniformLocation (pointLightPosName st.pointLight.index) (-1),
               GLCall.uniform3fv (-1) st.pointLight.position,
               GLCall.uniform3fv (-1) st.pointLight.color], true) := by
      unfold setValue
      rw [if_neg hne, hd]
      rfl
    refine ⟨_, _, hsv, ?_, ?_, ?_⟩
    · intro h; exact absurd hpl h
    · intro _
      refine ⟨rfl, ?_⟩
      intro l hl
      simp only [List.mem_cons, List.not_mem_nil, or_false] at hl
      rcases hl with h | h | h
      · injection h with h1 h2
        exact pointLightPosName_ne_colorName st.pointLight.index h1.symm
      · cases h
      · cases h
    · simp [hpl]
  · have hsp : SetPointLight prog st.pointLight =
        ([GLCall.getUniformLocation (pointLightPosName st.pointLight.index)
            (prog (pointLightPosName st.pointLight.index)),
          GLCall.uniform3fv (prog (pointLightPosName st.pointLight.index))
            st.pointLight.position,
          GLCall.getUniformLocation (pointLightColorName st.pointLight.index)
            (prog (pointLightColorName st.pointLight.index)),
          GLCall.uniform3fv (prog (pointLightColorName st.pointLight.index))
            st.pointLight.color],
         prog (pointLightColorName st.pointLight.index)) := by
      simp [SetPointLight, hpl]
    have hd : dispatchParam prog st name tu =
        some ([GLCall.getUniformLocation (pointLightPosName st.pointLight.index)
                 (prog (pointLightPosName st.pointLight.index)),
               GLCall.uniform3fv (prog (pointLightPosName st.pointLight.index))
                 st.pointLight.position,
               GLCall.getUniformLocation (pointLightColorName st.pointLight.index)
                 (prog (pointLightColorName st.pointLight.index)),
               GLCall.uniform3fv (prog (pointLightColorName st.pointLight.index))
                 st.pointLight.color],
              prog (pointLightColorName st.pointLight.index)) := by
      simp only [dispatchParam, hty]
      rw [hsp]
    have hsv : setValue prog st name tu =
        some ([GLCall.getUniformLocation (pointLightPosName st.pointLight.index)
                 (prog (pointLightPosName st.pointLight.index)),
               GLCall.uniform3fv (prog (pointLightPosName st.pointLight.index))
                 st.pointLight.position,
               GLCall.getUniformLocation (pointLightColorName st.pointLight.index)
                 (prog (pointLightColorName st.pointLight.index)),
               GLCall.uniform3fv (prog (pointLightColorName st.pointLight.index))
                 st.pointLight.color],
              (prog (pointLightColorName st.pointLight.index) == -1)) := by
      unfold setValue
      rw [if_neg hne, hd]
    refine ⟨_, _, hsv, ?_, ?_, ?_⟩
    · intro _; rfl
    · intro h; exact absurd h hpl
    · simp [beq_iff_eq, hpl]

def cParamPL : ShaderParameter :=
  { mkParam ShaderParamType.POINT_LIGHT with pointLight := ⟨0, 11, 22⟩ }

def cProgPL : String → Int :=
  fun n => if n = "pointLights[0].position" then 4 else -1

theorem c10_witness :
    ∃ trace warn, setValue cProgPL cParamPL "pl" 0 = some (trace, warn) ∧
      (cProgPL (pointLightPosName cParamPL.pointLight.index) ≠ -1 →
        trace = [GLCall.getUniformLocation (pointLightPosName cParamPL.pointLight.index)
                   (cProgPL (pointLightPosName cParamPL.pointLight.index)),
                 GLCall.uniform3fv (cProgPL (pointLightPosName cParamPL.pointLight.index))
                   cParamPL.pointLight.position,
                 GLCall.getUniformLocation (pointLightColorName cParamPL.pointLight.index)
                   (cProgPL (pointLightColorName cParamPL.pointLight.index)),
                 GLCall.uniform3fv (cProgPL (pointLightColorName cParamPL.pointLight.index))
                   cParamPL.pointLight.color]) ∧
      (cProgPL (pointLightPosName cParamPL.pointLight.index) = -1 →
        trace = [GLCall.getUniformLocation (pointLightPosName cParamPL.pointLight.index) (-1),
                 GLCall.uniform3fv (-1) cParamPL.pointLight.position,
                 GLCall.uniform3fv (-1) cParamPL.pointLight.color] ∧
        (∀ l, GLCall.getUniformLocation (pointLightColorName cParamPL.pointLight.index) l ∉
          trace)) ∧
      (warn = true ↔ (cProgPL (pointLightPosName cParamPL.pointLight.index) = -1 ∨
                      cProgPL (pointLightColorName cParamPL.pointLight.index) = -1)) :=
  c10_point_light_resolution cProgPL "pl" cParamPL 0 (by rfl)

/-- Shader::ShaderType (Shader.h), as asserted by AssembleProgram. -/
inductive ShaderType where
  | VERTEX
  | FRAGMENT
  | GEOMETRY
  | TESSELATION_EVALUATION
  | TESSELATION_CONTROL
deriving DecidableEq

/-- A Shader as AssembleProgram consumes it: its declared type and the
    value ShaderID() returns.  A ShaderSharedPtr is `Option Shader`. -/
structure Shader where
  shaderType : ShaderType
  shaderID : Nat
deriving DecidableEq

/-- The assert statements of Material::AssembleProgram
    (Material.cpp 47-82), in source order; a fired assert terminates the
    process, modelled as an `Except.error` naming the assert. -/
inductive AssertSite where
  | vertexNonNull
  | fragmentNonNull
  | vertexType
  | fragmentType
  | geometryType
  | tessEvalType
  | tessControlType
deriving DecidableEq

/-- One optional-stage block of AssembleProgram (Material.cpp 64-82):
    when the shader pointer is non-null, assert its declared type and
    attach its id; a null pointer attaches nothing. -/
def attachStage (s : Option Shader) (expected : ShaderType) (site : AssertSite) :
    Except AssertSite (List Nat) :=
  match s with
  | none => .ok []
  | some sh => if sh.shaderType = expected then .ok [sh.shaderID] else .error site

/-- Material::AssembleProgram (Material.cpp 39-99): asserts vertex and
    fragment shaders non-null and correctly typed, attaches them, then
    attaches the optional geometry, tessellation-evaluation and
    tessellation-control stages in source order.  The result is the list
    of attached shader ids (link diagnostics only go to the log). -/
def AssembleProgram (vertexShader fragmentShader geometryShader
    tessEvaluationShader tessControlShader : Option Shader) :
    Except AssertSite (List Nat) :=
  match vertexShader with
  | none => .error .vertexNonNull
  | some vs =>
    match fragmentShader with
    | none => .error .fragmentNonNull
    | some fs =>
      if vs.shaderType = ShaderType.VERTEX then
        if fs.shaderType = ShaderType.FRAGMENT then
          match attachStage geometryShader ShaderType.GEOMETRY AssertSite.geometryType with
          | .error e => .error e
          | .ok gl =>
            match attachStage tessEvaluationShader ShaderType.TESSELATION_EVALUATION
                AssertSite.tessEvalType with
            | .error e => .error e
            | .ok tel =>
              match attachStage tessControlShader ShaderType.TESSELATION_CONTROL
                  AssertSite.tessControlType with
              | .error e => .error e
              | .ok tcl => .ok (vs.shaderID :: fs.shaderID :: (gl ++ tel ++ tcl))
        else .error .fragmentType
      else .error .vertexType

/-- Material::Material (Material.cpp 27-37): the constructor forwards
    its arguments to AssembleProgram, passing tessControlShader for BOTH
    the tessEvaluationShader and the tessControlShader parameters; the
    caller-supplied tessEvaluationShader argument is dropped. -/
def MaterialCtor (_name : String) (vertexShader fragmentShader geometryShader
    tessEvaluationShader tessControlShader : Option Shader) :
    Except AssertSite (List Nat) :=
  AssembleProgram vertexShader fragmentShader geometryShader
    tessControlShader tessControlShader

/-- C9: the Material constructor passes its tessControlShader argument
    as both the tessellation-evaluation and tessellation-control
    parameters of AssembleProgram, so the caller-supplied
    tessEvaluationShader never influences the program (and is never
    attached), and whenever a tessellation-control shader (non-null, of
    TESSELATION_CONTROL type) is supplied — with the earlier mandatory
    asserts satisfied — the assert demanding TESSELATION_EVALUATION type
    fails on it. -/
theorem c9_tess_control_passed_twice (nm : String)
    (v f g te tc : Option Shader) (vs fs c : Shader)
    (hv : v = some vs) (hvt : vs.shaderType = ShaderType.VERTEX)
    (hf : f = some fs) (hft : fs.shaderType = ShaderType.FRAGMENT)
    (hg : g = none ∨ ∃ gs, g = some gs ∧ gs.shaderType = ShaderType.GEOMETRY)
    (htc : tc = some c) (hct : c.shaderType = ShaderType.TESSELATION_CONTROL) :
    MaterialCtor nm v f g te tc = AssembleProgram v f g tc tc ∧
    (∀ te', MaterialCtor nm v f g te' tc = MaterialCtor nm v f g te tc) ∧
    MaterialCtor nm v f g te tc = .error AssertSite.tessEvalType := by
  refine ⟨rfl, fun te' => rfl, ?_⟩
  subst hv hf htc
  have hgs : attachStage g ShaderType.GEOMETRY AssertSite.geometryType = .ok [] ∨
      ∃ gs : Shader,
        attachStage g ShaderType.GEOMETRY AssertSite.geometryType = .ok [gs.shaderID] := by
    rcases hg with hg | ⟨gs, hg, hgt⟩
    · subst hg; exact Or.inl rfl
    · subst hg; exact Or.inr ⟨gs, by simp [attachStage, hgt]⟩
  have hcs : attachStage (some c) ShaderType.TESSELATION_EVALUATION
      AssertSite.tessEvalType = .error AssertSite.tessEvalType := by
    simp only [attachStage]
    rw [if_neg (by rw [hct]; intro h; cases h)]
  rcases hgs with hgs | ⟨gs, hgs⟩ <;>
    simp [MaterialCtor, AssembleProgram, hvt, hft, hgs, hcs]

def cVert : Shader := ⟨ShaderType.VERTEX, 1⟩

def cFrag : Shader := ⟨ShaderType.FRAGMENT, 2⟩

def cTessCtrl : Shader := ⟨ShaderType.TESSELATION_CONTROL, 3⟩

theorem c9_witness :
    MaterialCtor "m" (some cVert) (some cFrag) none none (some cTessCtrl) =
      AssembleProgram (some cVert) (some cFrag) none (some cTessCtrl) (some cTessCtrl) ∧
    (∀ te', MaterialCtor "m" (some cVert) (some cFrag) none te' (some cTessCtrl) =
      MaterialCtor "m" (some cVert) (some cFrag) none none (some cTessCtrl)) ∧
    MaterialCtor "m" (some cVert) (some cFrag) none none (some cTessCtrl) =
      .error AssertSite.tessEvalType :=
  c9_tess_control_passed_twice "m" (some cVert) (some cFrag) none none
    (some cTessCtrl) cVert cFrag cTessCtrl rfl rfl rfl rfl (Or.inl rfl) rfl rfl

/-- A 3-component vector (glm::vec3) with opaque scalar components:
    setGlobalWorkSize only copies the components, so their scalar type
    is kept abstract. -/
structure Vec3 (α : Type) where
  x : α
  y : α
  z : α
deriving DecidableEq

/-- ComputeShader::MAX_IMAGES (ComputeShader.h line 78): the fixed
    capacity of the image table. -/
def MAX_IMAGES : Nat := 9

/-- The data members of ComputeShader (ComputeShader.h lines 56-86),
    with opaque handles as plain numbers; globalWorkSize is the
    size_t[3] array (components indexed 0,1,2 as fields x,y,z) and the
    scalar type of work-size components is abstract. -/
structure ComputeShaderState (α : Type) where
  shareGroup : Nat
  program : Nat
  device_id : Nat
  context : Nat
  dispatch_queue : Nat
  command_queue : Nat
  workgroup_size : Nat
  kernel : Nat
  globalWorkSize : Vec3 α
  image_objects : Fin MAX_IMAGES → Nat
  dimensions : Nat
  methodName : Option String
  images : List (Int × Nat)
  argument_images : List (Int × Nat)

/-- ComputeShader::setGlobalWorkSize (ComputeShader.h line 34): writes
    globalSize.x, .y, .z into globalWorkSize[0..2] and touches nothing
    else. -/
def setGlobalWorkSize {α : Type} (s : ComputeShaderState α) (globalSize : Vec3 α) :
    ComputeShaderState α :=
  { s with globalWorkSize := ⟨globalSize.x, globalSize.y, globalSize.z⟩ }

/-- C7: setGlobalWorkSize stores v.x, v.y, v.z as the three global-work-
    size components and leaves every other member of the compute-shader
    resource unchanged (kernel, program, context, queues, image table
    and bindings included); calling it again between dispatches simply
    overwrites the extent. -/
theorem c7_set_global_work_size (α : Type) (s : ComputeShaderState α) (v w : Vec3 α) :
    (setGlobalWorkSize s v).globalWorkSize.x = v.x ∧
    (setGlobalWorkSize s v).globalWorkSize.y = v.y ∧
    (setGlobalWorkSize s v).globalWorkSize.z = v.z ∧
    (setGlobalWorkSize s v).shareGroup = s.shareGroup ∧
    (setGlobalWorkSize s v).program = s.program ∧
    (setGlobalWorkSize s v).device_id = s.device_id ∧
    (setGlobalWorkSize s v).context = s.context ∧
    (setGlobalWorkSize s v).dispatch_queue = s.dispatch_queue ∧
    (setGlobalWorkSize s v).command_queue = s.command_queue ∧
    (setGlobalWorkSize s v).workgroup_size = s.workgroup_size ∧
    (setGlobalWorkSize s v).kernel = s.kernel ∧
    (setGlobalWorkSize s v).image_objects = s.image_objects ∧
    (setGlobalWorkSize s v).dimensions = s.dimensions ∧
    (setGlobalWorkSize s v).methodName = s.methodName ∧
    (setGlobalWorkSize s v).images = s.images ∧
    (setGlobalWorkSize s v).argument_images = s.argument_images ∧
    setGlobalWorkSize (setGlobalWorkSize s w) v = setGlobalWorkSize s v := by
  cases s
  exact ⟨rfl, rfl, rfl, rfl, rfl, rfl, rfl, rfl, rfl, rfl, rfl, rfl, rfl, rfl,
         rfl, rfl, rfl⟩

/-- Access qualifier of an image-binding member function of
    ComputeShader. -/
inductive AccessMode where
  | writeOnly
  | readOnly
  | readWrite
deriving DecidableEq

/-- Dimensionality of an image-binding member function. -/
inductive ImageDims where
  | two
  | three
deriving DecidableEq

/-- Declared return type of an image-binding member function:
    GLint (an argument-slot / error value) or void (nothing). -/
inductive ReturnType where
  | glint
  | void
deriving DecidableEq

/-- The declared return types of the six image-binding member functions
    of ComputeShader (ComputeShader.h lines 26-32): the three 3D
    variants return GLint, the three 2D variants return void. -/
def imageBindingReturnType : AccessMode → ImageDims → ReturnType
  | .writeOnly, .three => .glint
  | .readOnly, .three => .glint
  | .readWrite, .three => .glint
  | .writeOnly, .two => .void
  | .readOnly, .two => .void
  | .readWrite, .two => .void

/-- C4 counterexample: the claim that every image-binding variant
    returns a value is false — setWriteImage2DArgument (ComputeShader.h
    line 30) is declared void, so the write-only 2D variant returns
    nothing. -/
theorem c4_counterexample :
    imageBindingReturnType AccessMode.writeOnly ImageDims.two = ReturnType.void ∧
    ¬ (∀ (a : AccessMode) (d : ImageDims),
        imageBindingReturnType a d ≠ ReturnType.void) :=
  ⟨rfl, fun h => h AccessMode.writeOnly ImageDims.two rfl⟩

/-- C4 (amended): the three 3D image-binding operations return a GLint
    argument-slot/error value; the three 2D variants are declared void
    and return nothing to the caller. -/
theorem c4_return_types (a : AccessMode) :
    imageBindingReturnType a ImageDims.three = ReturnType.glint ∧
    imageBindingReturnType a ImageDims.two = ReturnType.void := by
  cases a <;> exact ⟨rfl, rfl⟩

/-- Per-call failures of the image argument binder (spec §7 taxonomy;
    only the one exercised by the claims is modelled). -/
inductive BindError where
  | ImageTableFull
deriving DecidableEq

/-- Modelled from the spec: the bodies of ComputeShader's image-binding
    members are not in the excerpt (only ComputeShader.h is), so the
    binder state is modelled from spec §3 and §4.3: a bounded table
    (capacity MAX_IMAGES) of images created for the kernel's lifetime,
    keyed by texture id so an image can be created once and reused; the
    per-argument-index bindings (at most one per index); the trace of
    released image objects; and a fresh-image counter. -/
structure KernelState where
  imageTable : List (Nat × Nat)
  argImages : Nat → Option Nat
  releases : List Nat
  nextImageObj : Nat

/-- Lookup of a texture id in the image table. -/
def lookupTexture : List (Nat × Nat) → Nat → Option Nat
  | [], _ => none
  | (k, v) :: rest, tex => if tex = k then some v else lookupTexture rest tex

/-- The image objects released by a bind at `index`: exactly the one
    previously bound there, if any. -/
def releaseList (s : KernelState) (index : Nat) : List Nat :=
  match s.argImages index with
  | some prev => [prev]
  | none => []

/-- Modelled from the spec: ComputeShader.cpp is not in the excerpt, so
    the bind contract of spec §4.3 is modelled: wrap the texture as a
    compute image (reusing the table entry when the texture was wrapped
    before, creating a fresh image object otherwise), fail with
    ImageTableFull when a new image would exceed the table capacity
    (leaving the state unchanged), release any image previously bound at
    `index`, store the binding and return the argument slot. -/
def bindImage (s : KernelState) (index : Nat) (textureID : Nat)
    (_access : AccessMode) (_dims : ImageDims) :
    Except BindError (KernelState × Nat) :=
  match lookupTexture s.imageTable textureID with
  | some img =>
    .ok ({ s with
           argImages := fun j => if j = index then some img else s.argImages j,
           releases := s.releases ++ releaseList s index }, index)
  | none =>
    if s.imageTable.length < MAX_IMAGES then
      .ok ({ imageTable := (textureID, s.nextImageObj) :: s.imageTable,
             argImages := fun j => if j = index then some s.nextImageObj
                                   else s.argImages j,
             releases := s.releases ++ releaseList s index,
             nextImageObj := s.nextImageObj + 1 }, index)
    else .error .ImageTableFull

/-- A sequence of binds (argument index, texture id) with a common
    access mode and dimensionality, collecting each call's result; a
    failed bind leaves the state unchanged and the caller goes on. -/
def bindAll (a : AccessMode) (d : ImageDims) :
    KernelState → List (Nat × Nat) → List (Except BindError Nat) × KernelState
  | s, [] => ([], s)
  | s, (index, tex) :: rest =>
    match bindImage s index tex a d with
    | .ok (s', slot) =>
      let r := bindAll a d s' rest
      (.ok slot :: r.1, r.2)
    | .error e =>
      let r := bindAll a d s rest
      (.error e :: r.1, r.2)

lemma bindAll_results (a : AccessMode) (d : ImageDims) :
    ∀ (binds : List (Nat × Nat)) (s : KernelState),
      (binds.map Prod.snd).Nodup →
      (∀ b ∈ binds, lookupTexture s.imageTable b.2 = none) →
      s.imageTable.length ≤ MAX_IMAGES →
      (∀ i idx, binds.get? i = some idx →
        (bindAll a d s binds).1.get? i =
          some (if s.imageTable.length + i < MAX_IMAGES then .ok idx.1
                else .error .ImageTableFull)) ∧
      (bindAll a d s binds).2.imageTable.length =
        min (s.imageTable.length + binds.length) MAX_IMAGES := by
  intro binds
  induction binds with
  | nil =>
    intro s _ _ hlen
    refine ⟨?_, ?_⟩
    · intro i idx hg
      simp at hg
    · simp [bindAll]
      omega
  | cons b rest ih =>
    intro s hnd hfresh hlen
    obtain ⟨index, tex⟩ := b
    have hfresh0 : lookupTexture s.imageTable tex = none :=
      hfresh (index, tex) (List.mem_cons_self ..)
    have hnd' : (rest.map Prod.snd).Nodup := by
      simp only [List.map_cons, List.nodup_cons] at hnd
      exact hnd.2
    have hntex : ∀ b ∈ rest, b.2 ≠ tex := by
      intro b hb heq
      simp only [List.map_cons, List.nodup_cons] at hnd
      exact hnd.1 (heq ▸ List.mem_map_of_mem Prod.snd hb)
    by_cases hcap : s.imageTable.length < MAX_IMAGES
    · have hbind : bindImage s index tex a d =
          .ok ({ imageTable := (tex, s.nextImageObj) :: s.imageTable,
                 argImages := fun j => if j = index then some s.nextImageObj
                                       else s.argImages j,
                 releases := s.releases ++ releaseList s index,
                 nextImageObj := s.nextImageObj + 1 }, index) := by
        simp [bindImage, hfresh0, hcap]
      obtain ⟨hres, hfin⟩ := ih
        { imageTable := (tex, s.nextImageObj) :: s.imageTable,
          argImages := fun j => if j = index then some s.nextImageObj
                                else s.argImages j,
          releases := s.releases ++ releaseList s index,
          nextImageObj := s.nextImageObj + 1 }
        hnd'
        (by
          intro b hb
          simp only [lookupTexture]
          rw [if_neg (hntex b hb)]
          exact hfresh b (List.mem_cons_of_mem _ hb))
        (by simp; omega)
      refine ⟨?_, ?_⟩
      · intro i idx hg
        cases i with
        | zero =>
          simp only [List.get?_cons_zero] at hg
          injection hg with hg'
          subst hg'
          simp only [bindAll, hbind]
          rw [if_pos (by omega)]
          rfl
        | succ i =>
          simp only [List.get?_cons_succ] at hg
          have := hres i idx hg
          simp only [bindAll, hbind, List.get?_cons_succ]
          rw [this]
          simp only [List.length_cons]
          congr 1
          by_cases hc2 : s.imageTable.length + (i + 1) < MAX_IMAGES
          · rw [if_pos hc2, if_pos (by omega)]
          · rw [if_neg hc2, if_neg (by omega)]
      · simp only [bindAll, hbind]
        rw [hfin]
        simp only [List.length_cons]
        omega
    · have hbind : bindImage s index tex a d = .error .ImageTableFull := by
        simp [bindImage, hfresh0, hcap]
      obtain ⟨hres, hfin⟩ := ih s hnd'
        (fun b hb => hfresh b (List.mem_cons_of_mem _ hb)) hlen
      refine ⟨?_, ?_⟩
      · intro i idx hg
        cases i with
        | zero =>
          simp only [List.get?_cons_zero] at hg
          injection hg with hg'
          subst hg'
          simp only [bindAll, hbind]
          rw [if_neg (by omega)]
          rfl
        | succ i =>
          simp only [List.get?_cons_succ] at hg
          have := hres i idx hg
          simp only [bindAll, hbind, List.get?_cons_succ]
          rw [this]
          congr 1
          rw [if_neg (by omega), if_neg (by omega)]
      · simp only [bindAll, hbind]
        rw [hfin]
        simp only [List.length_cons]
        omega

/-- C5: starting from an empty image table, binding a sequence of
    pairwise-distinct texture ids (at any indices): every bind among the
    first MAX_IMAGES = 9 succeeds with its argument slot, the bind at
    position 9 — the 10th distinct image — fails with ImageTableFull
    (reported to the caller, not dropped), and the table never holds
    more than 9 images. -/
theorem c5_image_table_capacity (a : AccessMode) (d : ImageDims)
    (s : KernelState) (binds : List (Nat × Nat))
    (h0 : s.imageTable = [])
    (hnd : (binds.map Prod.snd).Nodup) :
    (∀ i idx, i < MAX_IMAGES → binds.get? i = some idx →
      (bindAll a d s binds).1.get? i = some (.ok idx.1)) ∧
    (∀ idx, binds.get? MAX_IMAGES = some idx →
      (bindAll a d s binds).1.get? MAX_IMAGES = some (.error .ImageTableFull)) ∧
    (bindAll a d s binds).2.imageTable.length ≤ MAX_IMAGES := by
  have hfresh : ∀ b ∈ binds, lookupTexture s.imageTable b.2 = none := by
    intro b _
    rw [h0]
    rfl
  have hlen : s.imageTable.length ≤ MAX_IMAGES := by
    rw [h0]
    simp [MAX_IMAGES]
  obtain ⟨hres, hfin⟩ := bindAll_results a d binds s hnd hfresh hlen
  refine ⟨?_, ?_, ?_⟩
  · intro i idx hi hg
    have h := hres i idx hg
    rw [h0] at h
    rwa [if_pos (by simpa using hi)] at h
  · intro idx hg
    have h := hres MAX_IMAGES idx hg
    rw [h0] at h
    rwa [if_neg (by simp)] at h
  · rw [hfin]
    exact Nat.min_le_right ..

/-- The empty binder state, for witnesses. -/
def cS0 : KernelState :=
  { imageTable := [], argImages := fun _ => none, releases := [], nextImageObj := 0 }

def cBinds : List (Nat × Nat) :=
  [(0, 100), (1, 101), (2, 102), (3, 103), (4, 104),
   (5, 105), (6, 106), (7, 107), (8, 108), (9, 109)]

theorem c5_witness :
    (bindAll AccessMode.readOnly ImageDims.three cS0 cBinds).1.get? 0 =
      some (.ok 0) ∧
    (bindAll AccessMode.readOnly ImageDims.three cS0 cBinds).1.get? MAX_IMAGES =
      some (.error .ImageTableFull) :=
  ⟨(c5_image_table_capacity AccessMode.readOnly ImageDims.three cS0 cBinds rfl
      (by decide)).1 0 (0, 100) (by decide) rfl,
   (c5_image_table_capacity AccessMode.readOnly ImageDims.three cS0 cBinds rfl
      (by decide)).2.1 (9, 109) rfl⟩

/-- C6: rebinding an argument index that already holds an image object
    releases exactly that one prior object (appended once to the release
    trace — no leak, and, as it was never released before, no
    double-free), stores the new image as the sole binding at that
    index, and leaves every other index's binding untouched. -/
theorem c6_rebind_releases_prior (s : KernelState) (index tex : Nat)
    (a : AccessMode) (d : ImageDims) (img0 : Nat)
    (hbound : s.argImages index = some img0)
    (hnorel : img0 ∉ s.releases)
    (hcap : s.imageTable.length < MAX_IMAGES) :
    ∃ s' imgNew, bindImage s index tex a d = .ok (s', index) ∧
      s'.argImages index = some imgNew ∧
      (∀ j, j ≠ index → s'.argImages j = s.argImages j) ∧
      s'.releases = s.releases ++ [img0] ∧
      s'.releases.count img0 = 1 := by
  have hrel : releaseList s index = [img0] := by
    simp [releaseList, hbound]
  have hcount : (s.releases ++ [img0]).count img0 = 1 := by
    rw [List.count_append]
    rw [List.count_eq_zero.mpr hnorel]
    simp
  cases hl : lookupTexture s.imageTable tex with
  | some img =>
    refine ⟨{ s with
              argImages := fun j => if j = index then some img else s.argImages j,
              releases := s.releases ++ releaseList s index },
            img, ?_, ?_, ?_, ?_, ?_⟩
    · simp [bindImage, hl]
    · simp
    · intro j hj
      simp [hj]
    · simp [hrel]
    · simpa [hrel] using hcount
  | none =>
    refine ⟨{ imageTable := (tex, s.nextImageObj) :: s.imageTable,
              argImages := fun j => if j = index then some s.nextImageObj
                                    else s.argImages j,
              releases := s.releases ++ releaseList s index,
              nextImageObj := s.nextImageObj + 1 },
            s.nextImageObj, ?_, ?_, ?_, ?_, ?_⟩
    · simp [bindImage, hl, hcap]
    · simp
    · intro j hj
      simp [hj]
    · simp [hrel]
    · simpa [hrel] using hcount

def cS1 : KernelState :=
  { imageTable := [], argImages := fun j => if j = 0 then some 5 else none,
    releases := [], nextImageObj := 6 }

theorem c6_witness :
    ∃ s' imgNew,
      bindImage cS1 0 50 AccessMode.readOnly ImageDims.three = .ok (s', 0) ∧
      s'.argImages 0 = some imgNew ∧
      (∀ j, j ≠ 0 → s'.argImages j = cS1.argImages j) ∧
      s'.releases = cS1.releases ++ [5] ∧
      s'.releases.count 5 = 1 :=
  c6_rebind_releases_prior cS1 0 50 AccessMode.readOnly ImageDims.three 5
    rfl (by decide) (by decide)

/-- The two device classes initialization may try to acquire. -/
inductive DeviceAttempt where
  | gpu
  | cpu
deriving DecidableEq

/-- Modelled from the spec: the body of ComputeShader::init (and of
    obtainGPUDevice / obtainCPUDevice) is not in the excerpt; spec §4.1:
    device acquisition attempts a GPU device first and only on failure
    falls back to a CPU device, and initialization fails only when
    neither device can be acquired.  The arguments say which device
    classes are obtainable; the result records the attempts in order and
    whether init succeeded. -/
def init (gpuOK cpuOK : Bool) : List DeviceAttempt × Bool :=
  if gpuOK then ([.gpu], true)
  else if cpuOK then ([.gpu, .cpu], true)
  else ([.gpu, .cpu], false)

/-- C8: device acquisition always tries the GPU first; the CPU is
    attempted exactly when GPU acquisition fails; and initialization
    reports failure exactly when neither device can be acquired. -/
theorem c8_gpu_first_cpu_fallback :
    ∀ g c : Bool,
      (init g c).1.head? = some DeviceAttempt.gpu ∧
      (DeviceAttempt.cpu ∈ (init g c).1 ↔ g = false) ∧
      ((init g c).2 = false ↔ (g = false ∧ c = false)) := by
  decide

end VCT
